import Mathlib

/-!
Shallow embedding of the class-file decoder of java-class-tools
(src/java-class-reader.js) and verification of its specification.

The decoder is a single linear pass over a byte buffer.  We model the
buffer as a `List Nat` of byte values and the mutable ByteBuffer cursor
as an explicit position `Nat` threaded through every reader; each reader
returns `Except JErr (result × newPosition)`.  Multi-byte integers are
big-endian, matching the default of the bytebuffer library used by the
source.  Fallible reads fail with `truncatedInput` carrying the offset at
which the read was attempted, matching the RangeError the library throws.
-/

namespace JavaClassTools

/-- Error taxonomy of the decoder: the generic Errors thrown by the source
are distinguished by their message text. -/
inductive JErr where
  /-- A read past the end of the buffer (RangeError from the byte buffer);
  carries the offset at which the failed read was attempted. -/
  | truncatedInput (pos : Nat)
  /-- "Invalid MAGIC value" -/
  | magicMismatch
  /-- "Unexpected tag: t" from the constant-pool entry reader. -/
  | unknownConstantTag (tag : Nat)
  /-- "Unexpected tag: t" from the element-value reader. -/
  | unknownElementValueTag (tag : Nat)
  /-- "Unexpected target_type: t" from the type-annotation reader. -/
  | unknownTargetType (t : Nat)
  /-- TypeError: null/undefined source, or reading .bytes of undefined. -/
  | typeError
  /-- Modelling artifact: recursion fuel exhausted.  The top-level entry
  point supplies fuel larger than any possible recursion depth. -/
  | outOfFuel
deriving Repr, DecidableEq

/-- buf.readUint8(): one byte, advancing the position by 1. -/
def readUint8 (buf : List Nat) (pos : Nat) : Except JErr (Nat × Nat) :=
  match buf.get? pos with
  | some b => .ok (b, pos + 1)
  | none => .error (.truncatedInput pos)

/-- buf.readUint16(): two bytes big-endian, advancing the position by 2. -/
def readUint16 (buf : List Nat) (pos : Nat) : Except JErr (Nat × Nat) := do
  let (b0, p0) ← readUint8 buf pos
  let (b1, p1) ← readUint8 buf p0
  .ok (b0 * 256 + b1, p1)

/-- buf.readUint32(): four bytes big-endian, advancing the position by 4. -/
def readUint32 (buf : List Nat) (pos : Nat) : Except JErr (Nat × Nat) := do
  let (b0, p0) ← readUint8 buf pos
  let (b1, p1) ← readUint8 buf p0
  let (b2, p2) ← readUint8 buf p1
  let (b3, p3) ← readUint8 buf p2
  .ok (((b0 * 256 + b1) * 256 + b2) * 256 + b3, p3)

/-- A `while (n-- > 0) xs.push(buf.readUint8())` loop: reads `n` raw bytes. -/
def readU8List (n : Nat) (buf : List Nat) (pos : Nat) :
    Except JErr (List Nat × Nat) :=
  match n with
  | 0 => .ok ([], pos)
  | n + 1 => do
    let (b, p) ← readUint8 buf pos
    let (rest, p') ← readU8List n buf p
    .ok (b :: rest, p')

/-- A `while (n-- > 0) xs.push(buf.readUint16())` loop: reads `n` u16s. -/
def readU16List (n : Nat) (buf : List Nat) (pos : Nat) :
    Except JErr (List Nat × Nat) :=
  match n with
  | 0 => .ok ([], pos)
  | n + 1 => do
    let (v, p) ← readUint16 buf pos
    let (rest, p') ← readU16List n buf p
    .ok (v :: rest, p')

/- The numeric tag constants of constant-type.js, a file of this repository
that is not under src/.  The spec names the constant kinds (§3, §4.2) and the
source documents that all structures follow the JVM8 specification, which
fixes these values. -/
namespace ConstantType

/-- Modelled from the spec: constant-type.js tag constant. -/
def UTF8 : Nat := 1
/-- Modelled from the spec: constant-type.js tag constant. -/
def INTEGER : Nat := 3
/-- Modelled from the spec: constant-type.js tag constant. -/
def FLOAT : Nat := 4
/-- Modelled from the spec: constant-type.js tag constant. -/
def LONG : Nat := 5
/-- Modelled from the spec: constant-type.js tag constant. -/
def DOUBLE : Nat := 6
/-- Modelled from the spec: constant-type.js tag constant. -/
def CLASS : Nat := 7
/-- Modelled from the spec: constant-type.js tag constant. -/
def STRING : Nat := 8
/-- Modelled from the spec: constant-type.js tag constant. -/
def FIELDREF : Nat := 9
/-- Modelled from the spec: constant-type.js tag constant. -/
def METHODREF : Nat := 10
/-- Modelled from the spec: constant-type.js tag constant. -/
def INTERFACE_METHODREF : Nat := 11
/-- Modelled from the spec: constant-type.js tag constant. -/
def NAME_AND_TYPE : Nat := 12
/-- Modelled from the spec: constant-type.js tag constant. -/
def METHOD_HANDLE : Nat := 15
/-- Modelled from the spec: constant-type.js tag constant. -/
def METHOD_TYPE : Nat := 16
/-- Modelled from the spec: constant-type.js tag constant. -/
def INVOKE_DYNAMIC : Nat := 18
/-- Modelled from the spec: constant-type.js tag constant. -/
def MODULE : Nat := 19
/-- Modelled from the spec: constant-type.js tag constant. -/
def PACKAGE : Nat := 20

end ConstantType

/-- One constant-pool entry (the JS cp_info object).  The source stores a
byte list under key "bytes" for UTF8 entries and a u32 number under the
same key for integer/float entries; these become the two optional fields
`bytes` and `bytes_u32`.  Fields absent from the JS object are `none`. -/
structure CpInfo where
  tag : Nat
  length : Option Nat := none
  bytes : Option (List Nat) := none
  bytes_u32 : Option Nat := none
  high_bytes : Option Nat := none
  low_bytes : Option Nat := none
  name_index : Option Nat := none
  string_index : Option Nat := none
  class_index : Option Nat := none
  name_and_type_index : Option Nat := none
  descriptor_index : Option Nat := none
  reference_kind : Option Nat := none
  reference_index : Option Nat := none
  bootstrap_method_attr_index : Option Nat := none
deriving Repr, DecidableEq

/-- _readConstantPoolEntry: one tag byte, then the layout that tag selects;
any tag outside the 16 codes of ConstantType fails fatally. -/
def readConstantPoolEntry (buf : List Nat) (pos : Nat) :
    Except JErr (CpInfo × Nat) := do
  let (tag, p) ← readUint8 buf pos
  if tag = ConstantType.UTF8 then do
    let (strLen, p1) ← readUint16 buf p
    let (bs, p2) ← readU8List strLen buf p1
    .ok ({ tag := tag, length := some strLen, bytes := some bs }, p2)
  else if tag = ConstantType.INTEGER ∨ tag = ConstantType.FLOAT then do
    let (v, p1) ← readUint32 buf p
    .ok ({ tag := tag, bytes_u32 := some v }, p1)
  else if tag = ConstantType.LONG ∨ tag = ConstantType.DOUBLE then do
    let (hi, p1) ← readUint32 buf p
    let (lo, p2) ← readUint32 buf p1
    .ok ({ tag := tag, high_bytes := some hi, low_bytes := some lo }, p2)
  else if tag = ConstantType.PACKAGE ∨ tag = ConstantType.MODULE ∨
      tag = ConstantType.CLASS then do
    let (ni, p1) ← readUint16 buf p
    .ok ({ tag := tag, name_index := some ni }, p1)
  else if tag = ConstantType.STRING then do
    let (si, p1) ← readUint16 buf p
    .ok ({ tag := tag, string_index := some si }, p1)
  else if tag = ConstantType.FIELDREF ∨ tag = ConstantType.METHODREF ∨
      tag = ConstantType.INTERFACE_METHODREF then do
    let (ci, p1) ← readUint16 buf p
    let (nti, p2) ← readUint16 buf p1
    .ok ({ tag := tag, class_index := some ci,
           name_and_type_index := some nti }, p2)
  else if tag = ConstantType.NAME_AND_TYPE then do
    let (ni, p1) ← readUint16 buf p
    let (di, p2) ← readUint16 buf p1
    .ok ({ tag := tag, name_index := some ni,
           descriptor_index := some di }, p2)
  else if tag = ConstantType.METHOD_HANDLE then do
    let (rk, p1) ← readUint8 buf p
    let (ri, p2) ← readUint16 buf p1
    .ok ({ tag := tag, reference_kind := some rk,
           reference_index := some ri }, p2)
  else if tag = ConstantType.METHOD_TYPE then do
    let (di, p1) ← readUint16 buf p
    .ok ({ tag := tag, descriptor_index := some di }, p1)
  else if tag = ConstantType.INVOKE_DYNAMIC then do
    let (bi, p1) ← readUint16 buf p
    let (nti, p2) ← readUint16 buf p1
    .ok ({ tag := tag, bootstrap_method_attr_index := some bi,
           name_and_type_index := some nti }, p2)
  else
    .error (.unknownConstantTag tag)

/-- The `while (pool_size-- > 0)` loop of _readConstantPool, without the
leading index-0 sentinel.  After a long or double entry the source pushes
one `undefined` placeholder and decrements the remaining count an extra
time; JS number arithmetic on a count of 1 then yields -1 and the loop
guard stops, which `Nat` truncated subtraction reproduces. -/
def readConstantPoolLoop (pool_size : Nat) (buf : List Nat) (pos : Nat) :
    Except JErr (List (Option CpInfo) × Nat) :=
  match pool_size with
  | 0 => .ok ([], pos)
  | n + 1 => do
    let (entry, p) ← readConstantPoolEntry buf pos
    if entry.tag = ConstantType.LONG ∨ entry.tag = ConstantType.DOUBLE then
      -- continue with n - 1 entries remaining (matched on so that the
      -- recursion is structural)
      match n with
      | 0 => .ok ([some entry, none], p)
      | m + 1 => do
        let (rest, p') ← readConstantPoolLoop m buf p
        .ok (some entry :: none :: rest, p')
    else do
      let (rest, p') ← readConstantPoolLoop n buf p
      .ok (some entry :: rest, p')

/-- _readConstantPool: the pool is indexed from 1, so it starts with an
`undefined` sentinel at index 0. -/
def readConstantPool (pool_size : Nat) (buf : List Nat) (pos : Nat) :
    Except JErr (List (Option CpInfo) × Nat) := do
  let (entries, p) ← readConstantPoolLoop pool_size buf pos
  .ok (none :: entries, p)

/-- One verification_type_info record (JS type_info object): fields other
than the tag are set only for tag 7 (cpool_index) and tag 8 (offset). -/
structure VerificationTypeInfo where
  tag : Nat
  cpool_index : Option Nat := none
  offset : Option Nat := none
deriving Repr, DecidableEq

/-- _readVerificationTypeInfo: one tag byte; tag 7 and tag 8 read one extra
u16, every other tag value reads nothing more and is not checked. -/
def readVerificationTypeInfo (buf : List Nat) (pos : Nat) :
    Except JErr (VerificationTypeInfo × Nat) := do
  let (tag, p) ← readUint8 buf pos
  if tag = 7 then do
    let (ci, p1) ← readUint16 buf p
    .ok ({ tag := tag, cpool_index := some ci }, p1)
  else if tag = 8 then do
    let (off, p1) ← readUint16 buf p
    .ok ({ tag := tag, offset := some off }, p1)
  else
    .ok ({ tag := tag }, p)

/-- A `while (n-- > 0) xs.push(this._readVerificationTypeInfo())` loop. -/
def readVerificationTypeInfoList (n : Nat) (buf : List Nat) (pos : Nat) :
    Except JErr (List VerificationTypeInfo × Nat) :=
  match n with
  | 0 => .ok ([], pos)
  | n + 1 => do
    let (v, p) ← readVerificationTypeInfo buf pos
    let (rest, p') ← readVerificationTypeInfoList n buf p
    .ok (v :: rest, p')

/-- One current-form stack_map_frame (StackMapTable attribute).  The JS
object holds the frame_type byte plus whichever fields the selected range
sets; fields never set for that range are `none`. -/
structure StackMapFrame where
  frame_type : Nat
  offset_delta : Option Nat := none
  number_of_locals : Option Nat := none
  locals : Option (List VerificationTypeInfo) := none
  number_of_stack_items : Option Nat := none
  stack : Option (List VerificationTypeInfo) := none
deriving Repr, DecidableEq

/-- The body of the StackMapTable entry loop: one frame, its shape selected
by the numeric range of the frame_type byte.  Bytes 0-63 (SAME) and the
reserved range 128-246 match none of the branches and set no extra field. -/
def readStackMapFrame (buf : List Nat) (pos : Nat) :
    Except JErr (StackMapFrame × Nat) := do
  let (frame_type, p) ← readUint8 buf pos
  -- SAME_LOCALS_1_STACK_ITEM
  if 64 ≤ frame_type ∧ frame_type ≤ 127 then do
    let (v, p1) ← readVerificationTypeInfo buf p
    .ok ({ frame_type := frame_type, stack := some [v] }, p1)
  -- SAME_LOCALS_1_STACK_ITEM_EXTENDED
  else if frame_type = 247 then do
    let (od, p1) ← readUint16 buf p
    let (v, p2) ← readVerificationTypeInfo buf p1
    .ok ({ frame_type := frame_type, offset_delta := some od,
           stack := some [v] }, p2)
  -- CHOP = 248-250, SAME_FRAME_EXTENDED = 251
  else if 248 ≤ frame_type ∧ frame_type ≤ 251 then do
    let (od, p1) ← readUint16 buf p
    .ok ({ frame_type := frame_type, offset_delta := some od }, p1)
  -- APPEND
  else if 252 ≤ frame_type ∧ frame_type ≤ 254 then do
    let (od, p1) ← readUint16 buf p
    let (ls, p2) ← readVerificationTypeInfoList (frame_type - 251) buf p1
    .ok ({ frame_type := frame_type, offset_delta := some od,
           locals := some ls }, p2)
  -- FULL_FRAME
  else if frame_type = 255 then do
    let (od, p1) ← readUint16 buf p
    let (nl, p2) ← readUint16 buf p1
    let (ls, p3) ← readVerificationTypeInfoList nl buf p2
    let (ns, p4) ← readUint16 buf p3
    let (st, p5) ← readVerificationTypeInfoList ns buf p4
    .ok ({ frame_type := frame_type, offset_delta := some od,
           number_of_locals := some nl, locals := some ls,
           number_of_stack_items := some ns, stack := some st }, p5)
  else
    .ok ({ frame_type := frame_type }, p)

/-- The `while (number_of_entries-- > 0)` loop of the StackMapTable case. -/
def readStackMapFrameList (n : Nat) (buf : List Nat) (pos : Nat) :
    Except JErr (List StackMapFrame × Nat) :=
  match n with
  | 0 => .ok ([], pos)
  | n + 1 => do
    let (f, p) ← readStackMapFrame buf pos
    let (rest, p') ← readStackMapFrameList n buf p
    .ok (f :: rest, p')

/-- One legacy (CLDC StackMap attribute) stack_map_frame. -/
structure LegacyStackMapFrame where
  offset : Nat
  number_of_locals : Nat
  locals : List VerificationTypeInfo
  number_of_stack_items : Nat
  stack : List VerificationTypeInfo
deriving Repr, DecidableEq

/-- The body of the legacy StackMap entry loop. -/
def readLegacyStackMapFrame (buf : List Nat) (pos : Nat) :
    Except JErr (LegacyStackMapFrame × Nat) := do
  let (off, p) ← readUint16 buf pos
  let (nl, p1) ← readUint16 buf p
  let (ls, p2) ← readVerificationTypeInfoList nl buf p1
  let (ns, p3) ← readUint16 buf p2
  let (st, p4) ← readVerificationTypeInfoList ns buf p3
  .ok ({ offset := off, number_of_locals := nl, locals := ls,
         number_of_stack_items := ns, stack := st }, p4)

/-- The `while (number_of_entries-- > 0)` loop of the legacy StackMap case. -/
def readLegacyStackMapFrameList (n : Nat) (buf : List Nat) (pos : Nat) :
    Except JErr (List LegacyStackMapFrame × Nat) :=
  match n with
  | 0 => .ok ([], pos)
  | n + 1 => do
    let (f, p) ← readLegacyStackMapFrame buf pos
    let (rest, p') ← readLegacyStackMapFrameList n buf p
    .ok (f :: rest, p')

mutual

/-- One element_value (JS object {tag, value:{...}}).  The single JS
"value" sub-object is flattened here: its nested enum_const_value pair
becomes the two enum_* fields and its array_value pair becomes the two
array_* fields.  Fields the selected tag does not set are `none`. -/
inductive ElementValue where
  | mk (tag : Nat)
       (const_value_index : Option Nat)
       (enum_type_name_index : Option Nat)
       (enum_const_name_index : Option Nat)
       (class_info_index : Option Nat)
       (array_num_values : Option Nat)
       (array_values : Option (List ElementValue))
       (annot : Option Annot)

/-- One annotation structure (JS object built by _readAttributeAnnotation):
a type index and a list of element-value pairs. -/
inductive Annot where
  | mk (type_index : Nat) (num_element_value_pairs : Nat)
       (element_value_pairs : List ElementValuePair)

/-- One element_value_pairs entry: element_name_index plus element_value. -/
inductive ElementValuePair where
  | mk (element_name_index : Nat) (element_value : ElementValue)

end

def ElementValue.tag : ElementValue → Nat
  | .mk t _ _ _ _ _ _ _ => t

def ElementValue.const_value_index : ElementValue → Option Nat
  | .mk _ c _ _ _ _ _ _ => c

def ElementValue.enum_type_name_index : ElementValue → Option Nat
  | .mk _ _ e _ _ _ _ _ => e

def ElementValue.enum_const_name_index : ElementValue → Option Nat
  | .mk _ _ _ e _ _ _ _ => e

def ElementValue.class_info_index : ElementValue → Option Nat
  | .mk _ _ _ _ c _ _ _ => c

def ElementValue.array_num_values : ElementValue → Option Nat
  | .mk _ _ _ _ _ n _ _ => n

def ElementValue.array_values : ElementValue → Option (List ElementValue)
  | .mk _ _ _ _ _ _ v _ => v

def ElementValue.annot : ElementValue → Option Annot
  | .mk _ _ _ _ _ _ _ a => a

def Annot.type_index : Annot → Nat
  | .mk t _ _ => t

def Annot.num_element_value_pairs : Annot → Nat
  | .mk _ n _ => n

def Annot.element_value_pairs : Annot → List ElementValuePair
  | .mk _ _ p => p

/-- The `while (num_values-- > 0)` loop of the array-value case, over a
given element reader (the element reader at one fuel level less). -/
def evListWith (reader : List Nat → Nat → Except JErr (ElementValue × Nat)) :
    Nat → List Nat → Nat → Except JErr (List ElementValue × Nat)
  | 0, _, pos => .ok ([], pos)
  | n + 1, buf, pos => do
    let (v, p) ← reader buf pos
    let (rest, p') ← evListWith reader n buf p
    .ok (v :: rest, p')

/-- The `while (len-- > 0)` pair loop shared by the annotation readers,
over a given element reader. -/
def evPairListWith
    (reader : List Nat → Nat → Except JErr (ElementValue × Nat)) :
    Nat → List Nat → Nat → Except JErr (List ElementValuePair × Nat)
  | 0, _, pos => .ok ([], pos)
  | n + 1, buf, pos => do
    let (eni, p) ← readUint16 buf pos
    let (ev, p1) ← reader buf p
    let (rest, p') ← evPairListWith reader n buf p1
    .ok (.mk eni ev :: rest, p')

/-- _readAttributeAnnotation over a given element reader: type index, pair
count, then that many (name index, element_value) pairs. -/
def annotWith (reader : List Nat → Nat → Except JErr (ElementValue × Nat))
    (buf : List Nat) (pos : Nat) : Except JErr (Annot × Nat) := do
  let (ti, p) ← readUint16 buf pos
  let (n, p1) ← readUint16 buf p
  let (pairs, p2) ← evPairListWith reader n buf p1
  .ok (.mk ti n pairs, p2)

/-- _readElementValue: one tag byte selecting a 5-way union; any tag byte
outside the known set fails fatally.  The recursion through the array and
nested-annotation cases is bounded by explicit fuel; `outOfFuel` is a
modelling artifact never hit when fuel exceeds the nesting depth. -/
def readElementValue : Nat → List Nat → Nat → Except JErr (ElementValue × Nat)
  | 0, _, _ => .error .outOfFuel
  | fuel + 1, buf, pos => do
    let (tag, p) ← readUint8 buf pos
    if tag = 101 then do  -- e
      let (tni, p1) ← readUint16 buf p
      let (cni, p2) ← readUint16 buf p1
      .ok (.mk tag none (some tni) (some cni) none none none none, p2)
    else if tag = 99 then do  -- c
      let (cii, p1) ← readUint16 buf p
      .ok (.mk tag none none none (some cii) none none none, p1)
    else if tag = 91 then do  -- [
      let (num_values, p1) ← readUint16 buf p
      let (vs, p2) ← evListWith (readElementValue fuel) num_values buf p1
      .ok (.mk tag none none none none (some num_values) (some vs) none, p2)
    else if tag = 64 then do  -- @
      let (a, p1) ← annotWith (readElementValue fuel) buf p
      .ok (.mk tag none none none none none none (some a), p1)
    else if tag = 66 ∨ tag = 67 ∨ tag = 68 ∨ tag = 70 ∨ tag = 73 ∨
        tag = 74 ∨ tag = 83 ∨ tag = 90 ∨ tag = 115 then do
      -- B C D F I J S Z s
      let (cvi, p1) ← readUint16 buf p
      .ok (.mk tag (some cvi) none none none none none none, p1)
    else
      .error (.unknownElementValueTag tag)

/-- The array-value loop at a given fuel level. -/
def readElementValueList (fuel : Nat) (n : Nat) (buf : List Nat)
    (pos : Nat) : Except JErr (List ElementValue × Nat) :=
  evListWith (readElementValue fuel) n buf pos

/-- _readAttributeAnnotation at a given fuel level. -/
def readAttributeAnnot (fuel : Nat) (buf : List Nat) (pos : Nat) :
    Except JErr (Annot × Nat) :=
  annotWith (readElementValue fuel) buf pos

/-- The element-value pair-list loop at a given fuel level. -/
def readElementValuePairList (fuel : Nat) (n : Nat) (buf : List Nat)
    (pos : Nat) : Except JErr (List ElementValuePair × Nat) :=
  evPairListWith (readElementValue fuel) n buf pos

/-- A `while (num_annotations-- > 0)` loop of annotation-list attributes. -/
def readAnnotList (fuel : Nat) (n : Nat) (buf : List Nat) (pos : Nat) :
    Except JErr (List Annot × Nat) :=
  match n with
  | 0 => .ok ([], pos)
  | n + 1 => do
    let (a, p) ← readAttributeAnnot fuel buf pos
    let (rest, p') ← readAnnotList fuel n buf p
    .ok (a :: rest, p')

/-- One localvar_target table entry. -/
structure LocalvarTableEntry where
  start_pc : Nat
  length : Nat
  index : Nat
deriving Repr, DecidableEq

/-- The `while (table_length-- > 0)` loop of the localvar_target case. -/
def readLocalvarTable (n : Nat) (buf : List Nat) (pos : Nat) :
    Except JErr (List LocalvarTableEntry × Nat) :=
  match n with
  | 0 => .ok ([], pos)
  | n + 1 => do
    let (sp, p) ← readUint16 buf pos
    let (len, p1) ← readUint16 buf p
    let (idx, p2) ← readUint16 buf p1
    let (rest, p') ← readLocalvarTable n buf p2
    .ok ({ start_pc := sp, length := len, index := idx } :: rest, p')

/-- The target_info union (JS object whose fields depend on target_type);
fields the selected case does not set are `none`. -/
structure TargetInfo where
  type_parameter_index : Option Nat := none
  supertype_index : Option Nat := none
  bound_index : Option Nat := none
  formal_parameter_index : Option Nat := none
  throws_type_index : Option Nat := none
  table_length : Option Nat := none
  table : Option (List LocalvarTableEntry) := none
  exception_table_index : Option Nat := none
  offset : Option Nat := none
  type_argument_index : Option Nat := none
deriving Repr, DecidableEq

/-- One type_path entry. -/
structure TypePathEntry where
  type_path_kind : Nat
  type_argument_index : Nat
deriving Repr, DecidableEq

/-- The type_path structure. -/
structure TypePath where
  path_length : Nat
  path : List TypePathEntry
deriving Repr, DecidableEq

/-- The `while (path_length-- > 0)` loop of the type_path structure. -/
def readTypePathEntries (n : Nat) (buf : List Nat) (pos : Nat) :
    Except JErr (List TypePathEntry × Nat) :=
  match n with
  | 0 => .ok ([], pos)
  | n + 1 => do
    let (k, p) ← readUint8 buf pos
    let (i, p1) ← readUint8 buf p
    let (rest, p') ← readTypePathEntries n buf p1
    .ok ({ type_path_kind := k, type_argument_index := i } :: rest, p')

/-- One type_annotation structure. -/
structure TypeAnnot where
  target_type : Nat
  target_info : TargetInfo
  type_path : TypePath
  type_index : Nat
  num_element_value_pairs : Nat
  element_value_pairs : List ElementValuePair

/-- _readTypeAnnotation: target_type byte, target_info union, type_path,
type index, then the annotation-style pair list.  An unknown target_type
fails fatally. -/
def readTypeAnnot (fuel : Nat) (buf : List Nat) (pos : Nat) :
    Except JErr (TypeAnnot × Nat) := do
  let (tt, p) ← readUint8 buf pos
  let (ti, p1) ←
    -- type_parameter_target
    if tt = 0x00 ∨ tt = 0x01 then do
      let (tpi, q) ← readUint8 buf p
      .ok (({ type_parameter_index := some tpi } : TargetInfo), q)
    -- supertype_target
    else if tt = 0x10 then do
      let (si, q) ← readUint16 buf p
      .ok (({ supertype_index := some si } : TargetInfo), q)
    -- type_parameter_bound_target
    else if tt = 0x11 ∨ tt = 0x12 then do
      let (tpi, q) ← readUint8 buf p
      let (bi, q1) ← readUint8 buf q
      .ok (({ type_parameter_index := some tpi,
              bound_index := some bi } : TargetInfo), q1)
    -- empty_target
    else if tt = 0x13 ∨ tt = 0x14 ∨ tt = 0x15 then
      .ok (({} : TargetInfo), p)
    -- formal_parameter_target
    else if tt = 0x16 then do
      let (fpi, q) ← readUint8 buf p
      .ok (({ formal_parameter_index := some fpi } : TargetInfo), q)
    -- throws_target
    else if tt = 0x17 then do
      let (tti, q) ← readUint16 buf p
      .ok (({ throws_type_index := some tti } : TargetInfo), q)
    -- localvar_target
    else if tt = 0x40 ∨ tt = 0x41 then do
      let (tl, q) ← readUint16 buf p
      let (tbl, q1) ← readLocalvarTable tl buf q
      .ok (({ table_length := some tl, table := some tbl } : TargetInfo), q1)
    -- catch_target
    else if tt = 0x42 then do
      let (eti, q) ← readUint16 buf p
      .ok (({ exception_table_index := some eti } : TargetInfo), q)
    -- offset_target
    else if tt = 0x43 ∨ tt = 0x44 ∨ tt = 0x45 ∨ tt = 0x46 then do
      let (off, q) ← readUint16 buf p
      .ok (({ offset := some off } : TargetInfo), q)
    -- type_argument_target
    else if tt = 0x47 ∨ tt = 0x48 ∨ tt = 0x49 ∨ tt = 0x4A ∨ tt = 0x4B then do
      let (off, q) ← readUint16 buf p
      let (tai, q1) ← readUint8 buf q
      .ok (({ offset := some off,
              type_argument_index := some tai } : TargetInfo), q1)
    else
      .error (.unknownTargetType tt)
  let (pl, p2) ← readUint8 buf p1
  let (pes, p3) ← readTypePathEntries pl buf p2
  let (tyi, p4) ← readUint16 buf p3
  let (nevp, p5) ← readUint16 buf p4
  let (pairs, p6) ← readElementValuePairList fuel nevp buf p5
  .ok ({ target_type := tt, target_info := ti,
         type_path := { path_length := pl, path := pes },
         type_index := tyi, num_element_value_pairs := nevp,
         element_value_pairs := pairs }, p6)

/-- The `while (num_annotations-- > 0)` loop of type-annotation-list
attributes. -/
def readTypeAnnotList (fuel : Nat) (n : Nat) (buf : List Nat) (pos : Nat) :
    Except JErr (List TypeAnnot × Nat) :=
  match n with
  | 0 => .ok ([], pos)
  | n + 1 => do
    let (a, p) ← readTypeAnnot fuel buf pos
    let (rest, p') ← readTypeAnnotList fuel n buf p
    .ok (a :: rest, p')

/-- One InnerClasses table entry. -/
structure InnerClassEntry where
  inner_class_info_index : Nat
  outer_class_info_index : Nat
  inner_name_index : Nat
  inner_class_access_flags : Nat
deriving Repr, DecidableEq

def readInnerClassList (n : Nat) (buf : List Nat) (pos : Nat) :
    Except JErr (List InnerClassEntry × Nat) :=
  match n with
  | 0 => .ok ([], pos)
  | n + 1 => do
    let (a, p) ← readUint16 buf pos
    let (b, p1) ← readUint16 buf p
    let (c, p2) ← readUint16 buf p1
    let (d, p3) ← readUint16 buf p2
    let (rest, p') ← readInnerClassList n buf p3
    .ok ({ inner_class_info_index := a, outer_class_info_index := b,
           inner_name_index := c, inner_class_access_flags := d } :: rest, p')

/-- One LocalVariableTable entry. -/
structure LocalVariableEntry where
  start_pc : Nat
  length : Nat
  name_index : Nat
  descriptor_index : Nat
  index : Nat
deriving Repr, DecidableEq

def readLocalVariableList (n : Nat) (buf : List Nat) (pos : Nat) :
    Except JErr (List LocalVariableEntry × Nat) :=
  match n with
  | 0 => .ok ([], pos)
  | n + 1 => do
    let (a, p) ← readUint16 buf pos
    let (b, p1) ← readUint16 buf p
    let (c, p2) ← readUint16 buf p1
    let (d, p3) ← readUint16 buf p2
    let (e, p4) ← readUint16 buf p3
    let (rest, p') ← readLocalVariableList n buf p4
    .ok ({ start_pc := a, length := b, name_index := c,
           descriptor_index := d, index := e } :: rest, p')

/-- One LocalVariableTypeTable entry. -/
structure LocalVariableTypeEntry where
  start_pc : Nat
  length : Nat
  name_index : Nat
  signature_index : Nat
  index : Nat
deriving Repr, DecidableEq

def readLocalVariableTypeList (n : Nat) (buf : List Nat) (pos : Nat) :
    Except JErr (List LocalVariableTypeEntry × Nat) :=
  match n with
  | 0 => .ok ([], pos)
  | n + 1 => do
    let (a, p) ← readUint16 buf pos
    let (b, p1) ← readUint16 buf p
    let (c, p2) ← readUint16 buf p1
    let (d, p3) ← readUint16 buf p2
    let (e, p4) ← readUint16 buf p3
    let (rest, p') ← readLocalVariableTypeList n buf p4
    .ok ({ start_pc := a, length := b, name_index := c,
           signature_index := d, index := e } :: rest, p')

/-- One parameter_annotations entry. -/
structure ParameterAnnot where
  num_annotations : Nat
  annotations : List Annot

def readParameterAnnotList (fuel : Nat) (n : Nat) (buf : List Nat)
    (pos : Nat) : Except JErr (List ParameterAnnot × Nat) :=
  match n with
  | 0 => .ok ([], pos)
  | n + 1 => do
    let (na, p) ← readUint16 buf pos
    let (anns, p1) ← readAnnotList fuel na buf p
    let (rest, p') ← readParameterAnnotList fuel n buf p1
    .ok ({ num_annotations := na, annotations := anns } :: rest, p')

/-- One bootstrap_methods entry. -/
structure BootstrapMethod where
  bootstrap_method_ref : Nat
  num_bootstrap_arguments : Nat
  bootstrap_arguments : List Nat
deriving Repr, DecidableEq

def readBootstrapMethodList (n : Nat) (buf : List Nat) (pos : Nat) :
    Except JErr (List BootstrapMethod × Nat) :=
  match n with
  | 0 => .ok ([], pos)
  | n + 1 => do
    let (r, p) ← readUint16 buf pos
    let (na, p1) ← readUint16 buf p
    let (args, p2) ← readU16List na buf p1
    let (rest, p') ← readBootstrapMethodList n buf p2
    .ok ({ bootstrap_method_ref := r, num_bootstrap_arguments := na,
           bootstrap_arguments := args } :: rest, p')

/-- One MethodParameters entry. -/
structure MethodParameter where
  name_index : Nat
  access_flags : Nat
deriving Repr, DecidableEq

def readMethodParameterList (n : Nat) (buf : List Nat) (pos : Nat) :
    Except JErr (List MethodParameter × Nat) :=
  match n with
  | 0 => .ok ([], pos)
  | n + 1 => do
    let (ni, p) ← readUint16 buf pos
    let (af, p1) ← readUint16 buf p
    let (rest, p') ← readMethodParameterList n buf p1
    .ok ({ name_index := ni, access_flags := af } :: rest, p')

/-- One Code exception_table entry. -/
structure ExceptionTableEntry where
  start_pc : Nat
  end_pc : Nat
  handler_pc : Nat
  catch_type : Nat
deriving Repr, DecidableEq

def readExceptionTableList (n : Nat) (buf : List Nat) (pos : Nat) :
    Except JErr (List ExceptionTableEntry × Nat) :=
  match n with
  | 0 => .ok ([], pos)
  | n + 1 => do
    let (a, p) ← readUint16 buf pos
    let (b, p1) ← readUint16 buf p
    let (c, p2) ← readUint16 buf p1
    let (d, p3) ← readUint16 buf p2
    let (rest, p') ← readExceptionTableList n buf p3
    .ok ({ start_pc := a, end_pc := b, handler_pc := c,
           catch_type := d } :: rest, p')

/-- One LineNumberTable entry. -/
structure LineNumberEntry where
  start_pc : Nat
  line_number : Nat
deriving Repr, DecidableEq

def readLineNumberList (n : Nat) (buf : List Nat) (pos : Nat) :
    Except JErr (List LineNumberEntry × Nat) :=
  match n with
  | 0 => .ok ([], pos)
  | n + 1 => do
    let (sp, p) ← readUint16 buf pos
    let (ln, p1) ← readUint16 buf p
    let (rest, p') ← readLineNumberList n buf p1
    .ok ({ start_pc := sp, line_number := ln } :: rest, p')

/-- One Module requires entry. -/
structure ModuleRequires where
  requires_index : Nat
  requires_flags : Nat
  requires_version_index : Nat
deriving Repr, DecidableEq

def readModuleRequiresList (n : Nat) (buf : List Nat) (pos : Nat) :
    Except JErr (List ModuleRequires × Nat) :=
  match n with
  | 0 => .ok ([], pos)
  | n + 1 => do
    let (a, p) ← readUint16 buf pos
    let (b, p1) ← readUint16 buf p
    let (c, p2) ← readUint16 buf p1
    let (rest, p') ← readModuleRequiresList n buf p2
    .ok ({ requires_index := a, requires_flags := b,
           requires_version_index := c } :: rest, p')

/-- One Module exports entry. -/
structure ModuleExports where
  exports_index : Nat
  exports_flags : Nat
  exports_to_count : Nat
  exports_to_index : List Nat
deriving Repr, DecidableEq

def readModuleExportsList (n : Nat) (buf : List Nat) (pos : Nat) :
    Except JErr (List ModuleExports × Nat) :=
  match n with
  | 0 => .ok ([], pos)
  | n + 1 => do
    let (a, p) ← readUint16 buf pos
    let (b, p1) ← readUint16 buf p
    let (c, p2) ← readUint16 buf p1
    let (toIdx, p3) ← readU16List c buf p2
    let (rest, p') ← readModuleExportsList n buf p3
    .ok ({ exports_index := a, exports_flags := b, exports_to_count := c,
           exports_to_index := toIdx } :: rest, p')

/-- One Module opens entry. -/
structure ModuleOpens where
  opens_index : Nat
  opens_flags : Nat
  opens_to_count : Nat
  opens_to_index : List Nat
deriving Repr, DecidableEq

def readModuleOpensList (n : Nat) (buf : List Nat) (pos : Nat) :
    Except JErr (List ModuleOpens × Nat) :=
  match n with
  | 0 => .ok ([], pos)
  | n + 1 => do
    let (a, p) ← readUint16 buf pos
    let (b, p1) ← readUint16 buf p
    let (c, p2) ← readUint16 buf p1
    let (toIdx, p3) ← readU16List c buf p2
    let (rest, p') ← readModuleOpensList n buf p3
    .ok ({ opens_index := a, opens_flags := b, opens_to_count := c,
           opens_to_index := toIdx } :: rest, p')

/-- One Module provides entry. -/
structure ModuleProvides where
  provides_index : Nat
  provides_with_count : Nat
  provides_with_index : List Nat
deriving Repr, DecidableEq

def readModuleProvidesList (n : Nat) (buf : List Nat) (pos : Nat) :
    Except JErr (List ModuleProvides × Nat) :=
  match n with
  | 0 => .ok ([], pos)
  | n + 1 => do
    let (a, p) ← readUint16 buf pos
    let (b, p1) ← readUint16 buf p
    let (withIdx, p2) ← readU16List b buf p1
    let (rest, p') ← readModuleProvidesList n buf p2
    .ok ({ provides_index := a, provides_with_count := b,
           provides_with_index := withIdx } :: rest, p')

/-- One ModuleHashes table entry. -/
structure ModuleHashEntry where
  module_name_index : Nat
  hash_length : Nat
  hash : List Nat
deriving Repr, DecidableEq

def readModuleHashList (n : Nat) (buf : List Nat) (pos : Nat) :
    Except JErr (List ModuleHashEntry × Nat) :=
  match n with
  | 0 => .ok ([], pos)
  | n + 1 => do
    let (a, p) ← readUint16 buf pos
    let (b, p1) ← readUint16 buf p
    let (h, p2) ← readU8List b buf p1
    let (rest, p') ← readModuleHashList n buf p2
    .ok ({ module_name_index := a, hash_length := b, hash := h } :: rest, p')

mutual

/-- The fields the attribute_info switch sets for each resolved attribute
name, as a tagged union: one constructor per switch case plus `unknown`
for the raw-bytes default case.  The source sets these fields on one JS
object; cases sharing a body (the Runtime(In)visible pairs, and
Deprecated/Synthetic) share one constructor. -/
inductive AttrBody where
  | runtimeAnnotations (num_annotations : Nat) (annotations : List Annot)
  /-- Deprecated / Synthetic: no additional information. -/
  | markerOnly
  | innerClasses (number_of_classes : Nat) (classes : List InnerClassEntry)
  | localVariableTable (local_variable_table_length : Nat)
      (local_variable_table : List LocalVariableEntry)
  | localVariableTypeTable (local_variable_type_table_length : Nat)
      (local_variable_type_table : List LocalVariableTypeEntry)
  | parameterAnnotations (num_parameters : Nat)
      (parameter_annotations : List ParameterAnnot)
  | bootstrapMethods (num_bootstrap_methods : Nat)
      (bootstrap_methods : List BootstrapMethod)
  | typeAnnotations (num_annotations : Nat) (annotations : List TypeAnnot)
  | sourceDebugExtension (debug_extension : List Nat)
  | sourceFile (sourcefile_index : Nat)
  | enclosingMethod (class_index : Nat) (method_index : Nat)
  | annotationDefault (default_value : ElementValue)
  | methodParameters (parameters_count : Nat)
      (parameters : List MethodParameter)
  | exceptions (number_of_exceptions : Nat)
      (exception_index_table : List Nat)
  | constantValue (constantvalue_index : Nat)
  | signature (signature_index : Nat)
  | stackMap (number_of_entries : Nat) (entries : List LegacyStackMapFrame)
  | stackMapTable (number_of_entries : Nat) (entries : List StackMapFrame)
  | code (max_stack : Nat) (max_locals : Nat) (code_length : Nat)
      (code : List Nat) (exception_table_length : Nat)
      (exception_table : List ExceptionTableEntry)
      (attributes_count : Nat) (attributes : List AttributeInfo)
  | lineNumberTable (line_number_table_length : Nat)
      (line_number_table : List LineNumberEntry)
  | moduleMainClass (main_class_index : Nat)
  | moduleInfo (module_name_index : Nat) (module_flags : Nat)
      (module_version_index : Nat)
      (requires_count : Nat) (requires : List ModuleRequires)
      (exports_count : Nat) (exports : List ModuleExports)
      (opens_count : Nat) (opens : List ModuleOpens)
      (uses_count : Nat) (uses_index : List Nat)
      (provides_count : Nat) (provides : List ModuleProvides)
  | modulePackages (package_count : Nat) (package_index : List Nat)
  | moduleTarget (target_platform_index : Nat)
  | moduleHashes (algorithm_index : Nat) (hashes_table_length : Nat)
      (hashes_table : List ModuleHashEntry)
  /-- Unknown attribute name: exactly attribute_length raw bytes. -/
  | unknown (info : List Nat)

/-- One attribute_info: the two header fields every attribute carries plus
the name-selected body. -/
inductive AttributeInfo where
  | mk (attribute_name_index : Nat) (attribute_length : Nat)
      (body : AttrBody)

end

def AttributeInfo.attribute_name_index : AttributeInfo → Nat
  | .mk i _ _ => i

def AttributeInfo.attribute_length : AttributeInfo → Nat
  | .mk _ l _ => l

def AttributeInfo.body : AttributeInfo → AttrBody
  | .mk _ _ b => b

/-- String.fromCharCode.apply(null, bytes): each byte becomes one UTF-16
code unit; attribute names are ASCII so this is exact for them. -/
def fromCharCode (bs : List Nat) : String :=
  String.mk (bs.map Char.ofNat)

/-- Resolving an attribute name: the source evaluates
`constant_pool[index].bytes` and applies String.fromCharCode.  An index
whose slot is undefined (out of range, the index-0 sentinel, or a
long/double placeholder) throws a TypeError reading `.bytes`; an entry
whose `bytes` is a number (integer/float) makes Function.prototype.apply
throw a TypeError; an entry with no `bytes` field yields
`String.fromCharCode.apply(null, undefined)`, the empty string. -/
def resolveAttributeName (pool : List (Option CpInfo)) (index : Nat) :
    Except JErr String :=
  match pool.get? index with
  | none => .error .typeError
  | some none => .error .typeError
  | some (some entry) =>
    match entry.bytes with
    | some bs => .ok (fromCharCode bs)
    | none =>
      match entry.bytes_u32 with
      | some _ => .error .typeError
      | none => .ok ""

/-- _readAttributeInfoArray over a given attribute reader (the attribute
reader at one fuel level less): `while (attributes_count-- > 0)`. -/
def attrArrayWith
    (reader : List Nat → Nat → Except JErr (AttributeInfo × Nat)) :
    Nat → List Nat → Nat → Except JErr (List AttributeInfo × Nat)
  | 0, _, pos => .ok ([], pos)
  | n + 1, buf, pos => do
    let (a, p) ← reader buf pos
    let (rest, p') ← attrArrayWith reader n buf p
    .ok (a :: rest, p')

/-- _readAttributeInfo: the header (name index u16, length u32), the name
resolved through the constant pool, then the body selected by the name;
unrecognized names take the raw-bytes default case.  The recursion through
the Code case nested attribute list is bounded by explicit fuel. -/
def readAttributeInfo : Nat → List (Option CpInfo) → List Nat → Nat →
    Except JErr (AttributeInfo × Nat)
  | 0, _, _, _ => .error .outOfFuel
  | fuel + 1, pool, buf, pos => do
    let (ani, p) ← readUint16 buf pos
    let (alen, p1) ← readUint32 buf p
    let attributeName ← resolveAttributeName pool ani
    match attributeName with
    | "RuntimeInvisibleAnnotations" | "RuntimeVisibleAnnotations" => do
      let (n, p2) ← readUint16 buf p1
      let (anns, p3) ← readAnnotList fuel n buf p2
      .ok (.mk ani alen (.runtimeAnnotations n anns), p3)
    | "Deprecated" | "Synthetic" =>
      .ok (.mk ani alen .markerOnly, p1)
    | "InnerClasses" => do
      let (n, p2) ← readUint16 buf p1
      let (cs, p3) ← readInnerClassList n buf p2
      .ok (.mk ani alen (.innerClasses n cs), p3)
    | "LocalVariableTable" => do
      let (n, p2) ← readUint16 buf p1
      let (tbl, p3) ← readLocalVariableList n buf p2
      .ok (.mk ani alen (.localVariableTable n tbl), p3)
    | "LocalVariableTypeTable" => do
      let (n, p2) ← readUint16 buf p1
      let (tbl, p3) ← readLocalVariableTypeList n buf p2
      .ok (.mk ani alen (.localVariableTypeTable n tbl), p3)
    | "RuntimeInvisibleParameterAnnotations"
    | "RuntimeVisibleParameterAnnotations" => do
      let (n, p2) ← readUint8 buf p1
      let (pa, p3) ← readParameterAnnotList fuel n buf p2
      .ok (.mk ani alen (.parameterAnnotations n pa), p3)
    | "BootstrapMethods" => do
      let (n, p2) ← readUint16 buf p1
      let (bm, p3) ← readBootstrapMethodList n buf p2
      .ok (.mk ani alen (.bootstrapMethods n bm), p3)
    | "RuntimeInvisibleTypeAnnotations"
    | "RuntimeVisibleTypeAnnotations" => do
      let (n, p2) ← readUint16 buf p1
      let (anns, p3) ← readTypeAnnotList fuel n buf p2
      .ok (.mk ani alen (.typeAnnotations n anns), p3)
    | "SourceDebugExtension" => do
      let (bs, p2) ← readU8List alen buf p1
      .ok (.mk ani alen (.sourceDebugExtension bs), p2)
    | "SourceFile" => do
      let (i, p2) ← readUint16 buf p1
      .ok (.mk ani alen (.sourceFile i), p2)
    | "EnclosingMethod" => do
      let (ci, p2) ← readUint16 buf p1
      let (mi, p3) ← readUint16 buf p2
      .ok (.mk ani alen (.enclosingMethod ci mi), p3)
    | "AnnotationDefault" => do
      let (dv, p2) ← readElementValue fuel buf p1
      .ok (.mk ani alen (.annotationDefault dv), p2)
    | "MethodParameters" => do
      let (n, p2) ← readUint8 buf p1
      let (ps, p3) ← readMethodParameterList n buf p2
      .ok (.mk ani alen (.methodParameters n ps), p3)
    | "Exceptions" => do
      let (n, p2) ← readUint16 buf p1
      let (tbl, p3) ← readU16List n buf p2
      .ok (.mk ani alen (.exceptions n tbl), p3)
    | "ConstantValue" => do
      let (i, p2) ← readUint16 buf p1
      .ok (.mk ani alen (.constantValue i), p2)
    | "Signature" => do
      let (i, p2) ← readUint16 buf p1
      .ok (.mk ani alen (.signature i), p2)
    | "StackMap" => do
      let (n, p2) ← readUint16 buf p1
      let (es, p3) ← readLegacyStackMapFrameList n buf p2
      .ok (.mk ani alen (.stackMap n es), p3)
    | "StackMapTable" => do
      let (n, p2) ← readUint16 buf p1
      let (es, p3) ← readStackMapFrameList n buf p2
      .ok (.mk ani alen (.stackMapTable n es), p3)
    | "Code" => do
      let (ms, p2) ← readUint16 buf p1
      let (ml, p3) ← readUint16 buf p2
      let (cl, p4) ← readUint32 buf p3
      let (cbytes, p5) ← readU8List cl buf p4
      let (etl, p6) ← readUint16 buf p5
      let (et, p7) ← readExceptionTableList etl buf p6
      let (ac, p8) ← readUint16 buf p7
      let (attrs, p9) ← attrArrayWith (readAttributeInfo fuel pool) ac buf p8
      .ok (.mk ani alen (.code ms ml cl cbytes etl et ac attrs), p9)
    | "LineNumberTable" => do
      let (n, p2) ← readUint16 buf p1
      let (tbl, p3) ← readLineNumberList n buf p2
      .ok (.mk ani alen (.lineNumberTable n tbl), p3)
    | "ModuleMainClass" => do
      let (i, p2) ← readUint16 buf p1
      .ok (.mk ani alen (.moduleMainClass i), p2)
    | "Module" => do
      let (mni, p2) ← readUint16 buf p1
      let (mf, p3) ← readUint16 buf p2
      let (mvi, p4) ← readUint16 buf p3
      let (rc, p5) ← readUint16 buf p4
      let (reqs, p6) ← readModuleRequiresList rc buf p5
      let (ec, p7) ← readUint16 buf p6
      let (exps, p8) ← readModuleExportsList ec buf p7
      let (oc, p9) ← readUint16 buf p8
      let (ops, p10) ← readModuleOpensList oc buf p9
      let (uc, p11) ← readUint16 buf p10
      let (uix, p12) ← readU16List uc buf p11
      let (pc, p13) ← readUint16 buf p12
      let (provs, p14) ← readModuleProvidesList pc buf p13
      .ok (.mk ani alen
        (.moduleInfo mni mf mvi rc reqs ec exps oc ops uc uix pc provs), p14)
    | "ModulePackages" => do
      let (n, p2) ← readUint16 buf p1
      let (pix, p3) ← readU16List n buf p2
      .ok (.mk ani alen (.modulePackages n pix), p3)
    | "ModuleTarget" => do
      let (i, p2) ← readUint16 buf p1
      .ok (.mk ani alen (.moduleTarget i), p2)
    | "ModuleHashes" => do
      let (ai, p2) ← readUint16 buf p1
      let (n, p3) ← readUint16 buf p2
      let (tbl, p4) ← readModuleHashList n buf p3
      .ok (.mk ani alen (.moduleHashes ai n tbl), p4)
    | _ => do
      let (bs, p2) ← readU8List alen buf p1
      .ok (.mk ani alen (.unknown bs), p2)

/-- _readAttributeInfoArray at a given fuel level. -/
def readAttributeInfoArray (fuel : Nat) (attributes_count : Nat)
    (pool : List (Option CpInfo)) (buf : List Nat) (pos : Nat) :
    Except JErr (List AttributeInfo × Nat) :=
  attrArrayWith (readAttributeInfo fuel pool) attributes_count buf pos

/-- One field_info / method_info record (identical shapes). -/
structure Member where
  access_flags : Nat
  name_index : Nat
  descriptor_index : Nat
  attributes_count : Nat
  attributes : List AttributeInfo

/-- _readCommonFieldMethodArray: `while (count-- > 0)` over Member records,
each carrying its own attribute list. -/
def readCommonFieldMethodArray (fuel : Nat) (count : Nat)
    (pool : List (Option CpInfo)) (buf : List Nat) (pos : Nat) :
    Except JErr (List Member × Nat) :=
  match count with
  | 0 => .ok ([], pos)
  | n + 1 => do
    let (af, p) ← readUint16 buf pos
    let (ni, p1) ← readUint16 buf p
    let (di, p2) ← readUint16 buf p1
    let (ac, p3) ← readUint16 buf p2
    let (attrs, p4) ← readAttributeInfoArray fuel ac pool buf p3
    let (rest, p') ← readCommonFieldMethodArray fuel n pool buf p4
    .ok ({ access_flags := af, name_index := ni, descriptor_index := di,
           attributes_count := ac, attributes := attrs } :: rest, p')

/-- _readInterfaces: `while (interface_count-- > 0)` over u16 references. -/
def readInterfaces (interface_count : Nat) (buf : List Nat) (pos : Nat) :
    Except JErr (List Nat × Nat) :=
  match interface_count with
  | 0 => .ok ([], pos)
  | n + 1 => do
    let (v, p) ← readUint16 buf pos
    let (rest, p') ← readInterfaces n buf p
    .ok (v :: rest, p')

/-- The assembled ClassFile object. -/
structure ClassFile where
  minor_version : Nat
  major_version : Nat
  constant_pool_count : Nat
  constant_pool : List (Option CpInfo)
  access_flags : Nat
  this_class : Nat
  super_class : Nat
  interfaces_count : Nat
  interfaces : List Nat
  fields_count : Nat
  fields : List Member
  methods_count : Nat
  methods : List Member
  attributes_count : Nat
  attributes : List AttributeInfo

/-- The magic check of read(): four u8 reads compared against CA FE BA BE,
short-circuiting left to right exactly as the source's disjunction does. -/
def readMagic (buf : List Nat) (pos : Nat) : Except JErr Nat := do
  let (b0, p0) ← readUint8 buf pos
  if b0 = 0xCA then do
    let (b1, p1) ← readUint8 buf p0
    if b1 = 0xFE then do
      let (b2, p2) ← readUint8 buf p1
      if b2 = 0xBA then do
        let (b3, p3) ← readUint8 buf p2
        if b3 = 0xBE then .ok p3
        else .error .magicMismatch
      else .error .magicMismatch
    else .error .magicMismatch
  else .error .magicMismatch

/-- The body of read() once a byte buffer is in hand: magic, versions,
constant pool, access flags, class references, interfaces, fields,
methods, attributes.  Recursion fuel for the nested attribute decoding is
one more than the buffer length, which exceeds any reachable depth since
every nested attribute consumes at least its six header bytes. -/
def readClassFile (buf : List Nat) : Except JErr ClassFile := do
  let p4 ← readMagic buf 0
  let (minor, p5) ← readUint16 buf p4
  let (major, p6) ← readUint16 buf p5
  let (cpc, p7) ← readUint16 buf p6
  let (pool, p8) ← readConstantPool (cpc - 1) buf p7
  let (af, p9) ← readUint16 buf p8
  let (tc, p10) ← readUint16 buf p9
  let (sc, p11) ← readUint16 buf p10
  let (ic, p12) ← readUint16 buf p11
  let (ifs, p13) ← readInterfaces ic buf p12
  let (fc, p14) ← readUint16 buf p13
  let (fs, p15) ← readCommonFieldMethodArray (buf.length + 1) fc pool buf p14
  let (mc, p16) ← readUint16 buf p15
  let (ms, p17) ← readCommonFieldMethodArray (buf.length + 1) mc pool buf p16
  let (ac, p18) ← readUint16 buf p17
  let (attrs, _) ← readAttributeInfoArray (buf.length + 1) ac pool buf p18
  .ok { minor_version := minor, major_version := major,
        constant_pool_count := cpc, constant_pool := pool,
        access_flags := af, this_class := tc, super_class := sc,
        interfaces_count := ic, interfaces := ifs,
        fields_count := fc, fields := fs,
        methods_count := mc, methods := ms,
        attributes_count := ac, attributes := attrs }

/-- read(source): a null or undefined source throws a TypeError before
anything else; otherwise the buffer is wrapped and decoded.  The
filesystem path overload is outside the modelled core, so the source is
either absent (`none`) or a byte buffer. -/
def read (source : Option (List Nat)) : Except JErr ClassFile :=
  match source with
  | none => .error .typeError
  | some buf => readClassFile buf

/-- The sixteen constant tag codes the entry reader dispatches on (every
case label of the _readConstantPoolEntry switch). -/
def knownConstantTagCodes : List Nat :=
  [1, 3, 4, 5, 6, 7, 8, 9, 10, 11, 12, 15, 16, 18, 19, 20]

/-- Modelled from the spec: the fourteen constant kinds the spec counts
(§3 lists fourteen variants and then adds package/module separately),
i.e. the sixteen codes without MODULE (19) and PACKAGE (20). -/
def specFourteenConstantTags : List Nat :=
  [1, 3, 4, 5, 6, 7, 8, 9, 10, 11, 12, 15, 16, 18]

/-- The attribute names the _readAttributeInfo switch recognizes; every
other resolved name takes the raw-bytes default case. -/
def knownAttributeNames : List String :=
  ["RuntimeInvisibleAnnotations", "RuntimeVisibleAnnotations",
   "Deprecated", "Synthetic", "InnerClasses", "LocalVariableTable",
   "LocalVariableTypeTable", "RuntimeInvisibleParameterAnnotations",
   "RuntimeVisibleParameterAnnotations", "BootstrapMethods",
   "RuntimeInvisibleTypeAnnotations", "RuntimeVisibleTypeAnnotations",
   "SourceDebugExtension", "SourceFile", "EnclosingMethod",
   "AnnotationDefault", "MethodParameters", "Exceptions",
   "ConstantValue", "Signature", "StackMap", "StackMapTable",
   "Code", "LineNumberTable", "ModuleMainClass", "Module",
   "ModulePackages", "ModuleTarget", "ModuleHashes"]

/-- The element_value tag bytes the _readElementValue switch recognizes. -/
def knownElementValueTags : List Nat :=
  [101, 99, 91, 64, 66, 67, 68, 70, 73, 74, 83, 90, 115]

/-- The shape _readConstantPool guarantees of the entry list it builds
(before the index-0 sentinel is prepended): every entry slot is filled,
and a long/double entry is followed by exactly one placeholder slot. -/
inductive PoolChunked : List (Option CpInfo) → Prop where
  | nil : PoolChunked []
  | single : ∀ (e : CpInfo) (l : List (Option CpInfo)),
      ¬(e.tag = ConstantType.LONG ∨ e.tag = ConstantType.DOUBLE) →
      PoolChunked l → PoolChunked (some e :: l)
  | double : ∀ (e : CpInfo) (l : List (Option CpInfo)),
      (e.tag = ConstantType.LONG ∨ e.tag = ConstantType.DOUBLE) →
      PoolChunked l → PoolChunked (some e :: none :: l)

/-- A 24-byte class file: empty pool, no interfaces, fields, methods or
attributes; major version 0x34 = 52. -/
def minimalClassBytes : List Nat :=
  [0xCA, 0xFE, 0xBA, 0xBE, 0, 0, 0, 0x34, 0, 1,
   0, 0, 0, 0, 0, 0, 0, 0, 0, 0, 0, 0, 0, 0]

/-- The tree minimalClassBytes decodes to. -/
def minimalClassFile : ClassFile :=
  { minor_version := 0, major_version := 52,
    constant_pool_count := 1, constant_pool := [none],
    access_flags := 0, this_class := 0, super_class := 0,
    interfaces_count := 0, interfaces := [],
    fields_count := 0, fields := [],
    methods_count := 0, methods := [],
    attributes_count := 0, attributes := [] }

/-- A constant pool whose entry 1 is the UTF8 name "Code". -/
def codeNamePool : List (Option CpInfo) :=
  [none, some { tag := 1, length := some 4, bytes := some [67, 111, 100, 101] }]

/-- A Code attribute body declaring 4294967295 code bytes while only 3
bytes remain after the code_length field: name_index 1, attribute_length
20, max_stack 0, max_locals 0, code_length 0xFFFFFFFF, then bytes 1 2 3. -/
def hostileCodeBytes : List Nat :=
  [0, 1, 0, 0, 0, 20, 0, 0, 0, 0, 0xFF, 0xFF, 0xFF, 0xFF, 1, 2, 3]

/-! Helper lemmas shared by the claim theorems. -/

theorem exceptBind_ok {α β : Type} {m : Except JErr α}
    {f : α → Except JErr β} {b : β} (h : m >>= f = .ok b) :
    ∃ a, m = .ok a ∧ f a = .ok b := by
  cases m with
  | error e => simp [Bind.bind, Except.bind] at h
  | ok a => exact ⟨a, rfl, by simpa [Bind.bind, Except.bind] using h⟩

theorem exceptOk_bind {α β : Type} (a : α) (f : α → Except JErr β) :
    ((.ok a : Except JErr α) >>= f) = f a := rfl

theorem readU8List_of_le (n : Nat) (buf : List Nat) (pos : Nat)
    (h : pos + n ≤ buf.length) :
    readU8List n buf pos = .ok ((buf.drop pos).take n, pos + n) := by
  induction n generalizing pos with
  | zero => simp [readU8List]
  | succ n ih =>
    have hpos : pos < buf.length := by omega
    have hget : buf[pos]? = some buf[pos] := List.getElem?_eq_getElem hpos
    have h8 : readUint8 buf pos = .ok (buf[pos], pos + 1) := by
      simp [readUint8, hget]
    have ihe : readU8List n buf (pos + 1) =
        .ok ((buf.drop (pos + 1)).take n, pos + 1 + n) := ih (pos + 1) (by omega)
    have hdrop : buf.drop pos = buf[pos] :: buf.drop (pos + 1) :=
      List.drop_eq_getElem_cons hpos
    have step : readU8List (n + 1) buf pos =
        readU8List n buf (pos + 1) >>= fun x => .ok (buf[pos] :: x.1, x.2) := by
      simp only [readU8List, h8]
      rfl
    have harith : pos + 1 + n = pos + (n + 1) := by omega
    rw [step, ihe, exceptOk_bind, hdrop, List.take_succ_cons, harith]

theorem readU8List_length {n : Nat} {buf : List Nat} {pos : Nat}
    {bs : List Nat} {p : Nat} (h : readU8List n buf pos = .ok (bs, p)) :
    bs.length = n := by
  induction n generalizing pos bs p with
  | zero =>
    simp [readU8List] at h
    simp [h.1]
  | succ n ih =>
    simp only [readU8List] at h
    obtain ⟨⟨b, q⟩, h1, h⟩ := exceptBind_ok h
    obtain ⟨⟨rest, q'⟩, h2, h⟩ := exceptBind_ok h
    simp only [Except.ok.injEq, Prod.mk.injEq] at h
    obtain ⟨hb, hp⟩ := h
    subst hb
    simp [ih h2]

theorem readVTIList_one (buf : List Nat) (pos : Nat) :
    readVerificationTypeInfoList 1 buf pos =
      readVerificationTypeInfo buf pos >>= fun x => .ok ([x.1], x.2) := rfl

/-! Claim theorems. -/

/-- Claim C10: the public read operation, called with a null or undefined
source, throws a TypeError before consuming any input bytes and before
constructing any partial result. -/
theorem c10_read_null_source_typeError : read none = .error .typeError := rfl

/-- Claim C9: reading one verification-type-info record is total over the
tag byte: tag 7 reads exactly one following u16 stored as cpool_index,
tag 8 reads exactly one following u16 stored as offset, and every other
tag byte consumes no further bytes and yields a record holding only the
tag, never raising an error on the tag value. -/
theorem c9_verificationTypeInfo_total (buf : List Nat) (pos t : Nat)
    (h : buf.get? pos = some t) :
    ((t ≠ 7 ∧ t ≠ 8) →
      readVerificationTypeInfo buf pos = .ok ({ tag := t }, pos + 1)) ∧
    (t = 7 → ∀ v p, readUint16 buf (pos + 1) = .ok (v, p) →
      readVerificationTypeInfo buf pos =
        .ok ({ tag := t, cpool_index := some v }, p)) ∧
    (t = 8 → ∀ v p, readUint16 buf (pos + 1) = .ok (v, p) →
      readVerificationTypeInfo buf pos =
        .ok ({ tag := t, offset := some v }, p)) := by
  rw [List.get?_eq_getElem?] at h
  refine ⟨?_, ?_, ?_⟩
  · rintro ⟨h7, h8⟩
    simp [readVerificationTypeInfo, readUint8, h, h7, h8, exceptOk_bind]
  · rintro rfl v p h16
    simp [readVerificationTypeInfo, readUint8, h, h16, exceptOk_bind]
  · rintro rfl v p h16
    simp [readVerificationTypeInfo, readUint8, h, h16, exceptOk_bind]

theorem c9_verificationTypeInfo_total_witness :
    readVerificationTypeInfo [9] 0 = .ok ({ tag := 9 }, 1) :=
  (c9_verificationTypeInfo_total [9] 0 9 rfl).1 (by decide)

/-- Claim C8: decoding is deterministic — two runs of decode on the same
byte sequence yield structurally identical trees. -/
theorem c8_read_deterministic (s : Option (List Nat)) (cf1 cf2 : ClassFile)
    (h1 : read s = .ok cf1) (h2 : read s = .ok cf2) : cf1 = cf2 := by
  rw [h1] at h2
  exact Except.ok.inj h2

theorem c8_read_deterministic_witness : minimalClassFile = minimalClassFile :=
  c8_read_deterministic (some minimalClassBytes) minimalClassFile
    minimalClassFile rfl rfl

/-- Claim C1 (amended): in the current-form stack-map decoder, a frame
byte of 5 decodes as the no-extra-fields shape; a frame byte of 200 lies
in the reserved 128-246 gap and also decodes with no extra fields,
consuming no further bytes (CHOP is the range 248-250); a frame byte of
252 decodes as APPEND with a u16 offset-delta and exactly one following
VerificationTypeInfo entry. -/
theorem c1_stackMapTable_frame_shapes :
    (∀ (buf : List Nat) (pos : Nat), buf.get? pos = some 5 →
      readStackMapFrame buf pos = .ok ({ frame_type := 5 }, pos + 1)) ∧
    (∀ (buf : List Nat) (pos : Nat), buf.get? pos = some 200 →
      readStackMapFrame buf pos = .ok ({ frame_type := 200 }, pos + 1)) ∧
    (∀ (buf : List Nat) (pos d p1 : Nat) (v : VerificationTypeInfo)
      (p2 : Nat), buf.get? pos = some 252 →
      readUint16 buf (pos + 1) = .ok (d, p1) →
      readVerificationTypeInfo buf p1 = .ok (v, p2) →
      readStackMapFrame buf pos =
        .ok ({ frame_type := 252, offset_delta := some d,
               locals := some [v] }, p2)) := by
  refine ⟨?_, ?_, ?_⟩
  · intro buf pos h
    rw [List.get?_eq_getElem?] at h
    simp [readStackMapFrame, readUint8, h, exceptOk_bind]
  · intro buf pos h
    rw [List.get?_eq_getElem?] at h
    simp [readStackMapFrame, readUint8, h, exceptOk_bind]
  · intro buf pos d p1 v p2 h h16 hvti
    rw [List.get?_eq_getElem?] at h
    simp [readStackMapFrame, readUint8, h, h16, readVTIList_one, hvti,
      exceptOk_bind]

/-- Claim C1 counterexample: a frame byte of 200 does NOT decode as CHOP;
no offset-delta u16 is consumed (the next position is 1, not 3, and the
frame carries no offset_delta). -/
theorem c1_counterexample :
    readStackMapFrame [200, 0, 5] 0 = .ok ({ frame_type := 200 }, 1) ∧
    readStackMapFrame [200, 0, 5] 0 ≠
      .ok ({ frame_type := 200, offset_delta := some 5 }, 3) := by
  constructor
  · rfl
  · intro hcontra
    exact absurd (congrArg Prod.snd (Except.ok.inj hcontra)) (by decide)

theorem c1_stackMapTable_frame_shapes_witness :
    readStackMapFrame [252, 0, 7, 1, 9] 0 =
      .ok ({ frame_type := 252, offset_delta := some 7,
             locals := some [{ tag := 1 }] }, 4) :=
  c1_stackMapTable_frame_shapes.2.2 [252, 0, 7, 1, 9] 0 7 3 { tag := 1 } 4
    rfl rfl rfl

theorem exceptErr_bind {α β : Type} (e : JErr) (f : α → Except JErr β) :
    ((.error e : Except JErr α) >>= f) = .error e := rfl

/-- A class file whose headers are well formed (pool count 2, so one pool
entry) and whose first pool entry has the unknown constant tag 2. -/
def badTagBytes : List Nat :=
  [0xCA, 0xFE, 0xBA, 0xBE, 0, 0, 0, 0x34, 0, 2, 2]

/-- Claim C5 (amended): for every input in which a constant-pool entry's
tag byte is outside the SIXTEEN known constant tag codes (the spec's
fourteen plus MODULE 19 and PACKAGE 20), the entry reader fails with
UnknownConstantTag; the pool loop fails likewise at such an entry; and
once the headers have been read, a failing pool decode makes the whole
read fail with the same error, so no tree is returned. -/
theorem c5_unknownConstantTag_aborts :
    (∀ (buf : List Nat) (pos t : Nat), buf.get? pos = some t →
      t ∉ knownConstantTagCodes →
      readConstantPoolEntry buf pos = .error (.unknownConstantTag t)) ∧
    (∀ (n : Nat) (buf : List Nat) (pos t : Nat), buf.get? pos = some t →
      t ∉ knownConstantTagCodes →
      readConstantPoolLoop (n + 1) buf pos =
        .error (.unknownConstantTag t)) ∧
    (∀ (buf : List Nat) (p4 minor p5 major p6 cpc p7 : Nat) (e : JErr),
      readMagic buf 0 = .ok p4 →
      readUint16 buf p4 = .ok (minor, p5) →
      readUint16 buf p5 = .ok (major, p6) →
      readUint16 buf p6 = .ok (cpc, p7) →
      readConstantPool (cpc - 1) buf p7 = .error e →
      read (some buf) = .error e) := by
  have ha : ∀ (buf : List Nat) (pos t : Nat), buf.get? pos = some t →
      t ∉ knownConstantTagCodes →
      readConstantPoolEntry buf pos = .error (.unknownConstantTag t) := by
    intro buf pos t h hnot
    rw [List.get?_eq_getElem?] at h
    obtain ⟨e1, e3, e4, e5, e6, e7, e8, e9, e10, e11, e12, e15, e16, e18,
        e19, e20⟩ : t ≠ 1 ∧ t ≠ 3 ∧ t ≠ 4 ∧ t ≠ 5 ∧ t ≠ 6 ∧ t ≠ 7 ∧
        t ≠ 8 ∧ t ≠ 9 ∧ t ≠ 10 ∧ t ≠ 11 ∧ t ≠ 12 ∧ t ≠ 15 ∧ t ≠ 16 ∧
        t ≠ 18 ∧ t ≠ 19 ∧ t ≠ 20 := by
      simpa [knownConstantTagCodes] using hnot
    simp [readConstantPoolEntry, readUint8, h, exceptOk_bind,
      ConstantType.UTF8, ConstantType.INTEGER, ConstantType.FLOAT,
      ConstantType.LONG, ConstantType.DOUBLE, ConstantType.CLASS,
      ConstantType.STRING, ConstantType.FIELDREF, ConstantType.METHODREF,
      ConstantType.INTERFACE_METHODREF, ConstantType.NAME_AND_TYPE,
      ConstantType.METHOD_HANDLE, ConstantType.METHOD_TYPE,
      ConstantType.INVOKE_DYNAMIC, ConstantType.MODULE,
      ConstantType.PACKAGE, e1, e3, e4, e5, e6, e7, e8, e9, e10, e11,
      e12, e15, e16, e18, e19, e20]
  refine ⟨ha, ?_, ?_⟩
  · intro n buf pos t h hnot
    simp [readConstantPoolLoop, ha buf pos t h hnot, exceptErr_bind]
  · intro buf p4 minor p5 major p6 cpc p7 e hm h1 h2 h3 hp
    show readClassFile buf = .error e
    simp [readClassFile, hm, h1, h2, h3, hp, exceptOk_bind, exceptErr_bind]

theorem c5_unknownConstantTag_aborts_witness :
    read (some badTagBytes) = .error (.unknownConstantTag 2) :=
  c5_unknownConstantTag_aborts.2.2 badTagBytes 4 0 6 52 8 2 10
    (.unknownConstantTag 2) rfl rfl rfl rfl rfl

/-- Claim C5 counterexample: tag 19 (MODULE) is outside the fourteen
constant kinds the spec counts, yet the entry reader accepts it, so the
claim's "14 known constant tag codes" is off by the two module-system
tags. -/
theorem c5_counterexample :
    19 ∉ specFourteenConstantTags ∧
    readConstantPoolEntry [19, 0, 1] 0 =
      .ok ({ tag := 19, name_index := some 1 }, 3) :=
  ⟨by decide, rfl⟩

theorem poolChunked_get_zero {l : List (Option CpInfo)} (h : PoolChunked l)
    {x : Option CpInfo} (hx : l.get? 0 = some x) : ∃ e, x = some e := by
  cases h with
  | nil => simp at hx
  | single e l' hno hl =>
    simp at hx
    exact ⟨e, hx.symm⟩
  | double e l' hyes hl =>
    simp at hx
    exact ⟨e, hx.symm⟩

theorem readConstantPoolLoop_chunked (n : Nat) :
    ∀ (buf : List Nat) (pos : Nat) (l : List (Option CpInfo)) (p : Nat),
      readConstantPoolLoop n buf pos = .ok (l, p) → PoolChunked l := by
  induction n using Nat.strong_induction_on with
  | _ n ih =>
    intro buf pos l p h
    match n with
    | 0 =>
      simp [readConstantPoolLoop] at h
      rw [h.1]
      exact PoolChunked.nil
    | n + 1 =>
      simp only [readConstantPoolLoop] at h
      obtain ⟨⟨entry, q⟩, h1, h⟩ := exceptBind_ok h
      by_cases htag : entry.tag = ConstantType.LONG ∨
          entry.tag = ConstantType.DOUBLE
      · rw [if_pos htag] at h
        cases n with
        | zero =>
          simp only [Except.ok.injEq, Prod.mk.injEq] at h
          rw [← h.1]
          exact PoolChunked.double entry [] htag PoolChunked.nil
        | succ m =>
          obtain ⟨⟨rest, q'⟩, h2, h⟩ := exceptBind_ok h
          simp only [Except.ok.injEq, Prod.mk.injEq] at h
          rw [← h.1]
          exact PoolChunked.double entry rest htag
            (ih m (by omega) buf q rest q' h2)
      · rw [if_neg htag] at h
        obtain ⟨⟨rest, q'⟩, h2, h⟩ := exceptBind_ok h
        simp only [Except.ok.injEq, Prod.mk.injEq] at h
        rw [← h.1]
        exact PoolChunked.single entry rest htag
          (ih n (by omega) buf q rest q' h2)

theorem poolChunked_spec {l : List (Option CpInfo)} (h : PoolChunked l) :
    ∀ (i : Nat) (e : CpInfo), l.get? i = some (some e) →
      ((e.tag = ConstantType.LONG ∨ e.tag = ConstantType.DOUBLE) →
        l.get? (i + 1) = some none ∧
        ∀ x, l.get? (i + 2) = some x → ∃ e2, x = some e2) ∧
      (¬(e.tag = ConstantType.LONG ∨ e.tag = ConstantType.DOUBLE) →
        ∀ x, l.get? (i + 1) = some x → ∃ e2, x = some e2) := by
  induction h with
  | nil =>
    intro i e hi
    simp at hi
  | single e' l' hno hl ih =>
    intro i e hi
    match i with
    | 0 =>
      simp at hi
      subst hi
      refine ⟨fun hyes => absurd hyes hno, fun _ x hx => ?_⟩
      exact poolChunked_get_zero hl hx
    | j + 1 =>
      exact ih j e hi
  | double e' l' hyes hl ih =>
    intro i e hi
    match i with
    | 0 =>
      simp at hi
      subst hi
      refine ⟨fun _ => ⟨rfl, fun x hx => ?_⟩, fun hno => absurd hyes hno⟩
      exact poolChunked_get_zero hl hx
    | 1 =>
      simp at hi
    | j + 2 =>
      exact ih j e hi

/-- Claim C2: in every successfully decoded constant pool, a long or
double entry at index i is followed by the reserved placeholder at index
i+1, and the slot at i+2 (when it exists) is again a real entry; after
any other entry kind the slot at i+1 (when it exists) is a real entry,
i.e. indices of real entries increase by 1. -/
theorem c2_longDouble_double_slot (n : Nat) (buf : List Nat) (pos : Nat)
    (pool : List (Option CpInfo)) (p : Nat)
    (h : readConstantPool n buf pos = .ok (pool, p)) :
    ∀ (i : Nat) (e : CpInfo), pool.get? i = some (some e) →
      ((e.tag = ConstantType.LONG ∨ e.tag = ConstantType.DOUBLE) →
        pool.get? (i + 1) = some none ∧
        ∀ x, pool.get? (i + 2) = some x → ∃ e2, x = some e2) ∧
      (¬(e.tag = ConstantType.LONG ∨ e.tag = ConstantType.DOUBLE) →
        ∀ x, pool.get? (i + 1) = some x → ∃ e2, x = some e2) := by
  simp only [readConstantPool] at h
  obtain ⟨⟨entries, q⟩, h1, h2⟩ := exceptBind_ok h
  simp only [Except.ok.injEq, Prod.mk.injEq] at h2
  have hchunk := readConstantPoolLoop_chunked n buf pos entries q h1
  rw [← h2.1]
  intro i e hi
  match i with
  | 0 => simp at hi
  | j + 1 => exact poolChunked_spec hchunk j e hi

/-- A three-entry pool declaration: a long entry (which occupies two
slots) followed by an integer entry. -/
def longPoolBytes : List Nat := [5, 0, 0, 0, 0, 0, 0, 0, 1, 3, 0, 0, 0, 7]

theorem c2_longDouble_double_slot_witness :
    ([none, some { tag := 5, high_bytes := some 0, low_bytes := some 1 },
      none, some { tag := 3, bytes_u32 := some 7 }] :
      List (Option CpInfo)).get? 2 = some none :=
  ((c2_longDouble_double_slot 3 longPoolBytes 0 _ 14 rfl 1
      { tag := 5, high_bytes := some 0, low_bytes := some 1 } rfl).1
    (Or.inl rfl)).1

/-- Claim C6: every input beginning CA FE BA BE 00 00 00 34 00 01 (magic,
minor 0, major 0x34, pool count 1) that decodes successfully yields a
ClassFile with minor_version 0, major_version 52 and no pool entry beyond
the index-0 sentinel; and every input whose first four bytes are
CA FE BA AD fails with the magic-mismatch error. -/
theorem c6_magic_and_versions :
    (∀ (rest : List Nat) (cf : ClassFile),
      read (some ([0xCA, 0xFE, 0xBA, 0xBE, 0, 0, 0, 0x34, 0, 1] ++ rest)) =
        .ok cf →
      cf.minor_version = 0 ∧ cf.major_version = 52 ∧
        cf.constant_pool = [none]) ∧
    (∀ buf : List Nat, buf.get? 0 = some 0xCA → buf.get? 1 = some 0xFE →
      buf.get? 2 = some 0xBA → buf.get? 3 = some 0xAD →
      read (some buf) = .error .magicMismatch) := by
  constructor
  · intro rest cf h
    have hm : readMagic ([0xCA, 0xFE, 0xBA, 0xBE, 0, 0, 0, 0x34, 0, 1] ++
        rest) 0 = .ok 4 := rfl
    have h1 : readUint16 ([0xCA, 0xFE, 0xBA, 0xBE, 0, 0, 0, 0x34, 0, 1] ++
        rest) 4 = .ok (0, 6) := rfl
    have h2 : readUint16 ([0xCA, 0xFE, 0xBA, 0xBE, 0, 0, 0, 0x34, 0, 1] ++
        rest) 6 = .ok (52, 8) := rfl
    have h3 : readUint16 ([0xCA, 0xFE, 0xBA, 0xBE, 0, 0, 0, 0x34, 0, 1] ++
        rest) 8 = .ok (1, 10) := rfl
    have hp : readConstantPool (1 - 1) ([0xCA, 0xFE, 0xBA, 0xBE, 0, 0, 0,
        0x34, 0, 1] ++ rest) 10 = .ok ([none], 10) := rfl
    simp only [read, readClassFile, hm, h1, h2, h3, hp, exceptOk_bind] at h
    obtain ⟨⟨af, p9⟩, _, h⟩ := exceptBind_ok h
    obtain ⟨⟨tc, p10⟩, _, h⟩ := exceptBind_ok h
    obtain ⟨⟨sc, p11⟩, _, h⟩ := exceptBind_ok h
    obtain ⟨⟨ic, p12⟩, _, h⟩ := exceptBind_ok h
    obtain ⟨⟨ifs, p13⟩, _, h⟩ := exceptBind_ok h
    obtain ⟨⟨fc, p14⟩, _, h⟩ := exceptBind_ok h
    obtain ⟨⟨fs, p15⟩, _, h⟩ := exceptBind_ok h
    obtain ⟨⟨mc, p16⟩, _, h⟩ := exceptBind_ok h
    obtain ⟨⟨ms, p17⟩, _, h⟩ := exceptBind_ok h
    obtain ⟨⟨ac, p18⟩, _, h⟩ := exceptBind_ok h
    obtain ⟨⟨attrs, p19⟩, _, h⟩ := exceptBind_ok h
    have hcf := Except.ok.inj h
    rw [← hcf]
    exact ⟨rfl, rfl, rfl⟩
  · intro buf h0 h1 h2 h3
    rw [List.get?_eq_getElem?] at h0 h1 h2 h3
    have hm : readMagic buf 0 = .error .magicMismatch := by
      simp [readMagic, readUint8, h0, h1, h2, h3, exceptOk_bind]
    show readClassFile buf = .error .magicMismatch
    simp [readClassFile, hm, exceptErr_bind]

theorem c6_magic_and_versions_witness :
    (minimalClassFile.minor_version = 0 ∧
      minimalClassFile.major_version = 52 ∧
      minimalClassFile.constant_pool = [none]) ∧
    read (some [0xCA, 0xFE, 0xBA, 0xAD]) = .error .magicMismatch :=
  ⟨c6_magic_and_versions.1 [0, 0, 0, 0, 0, 0, 0, 0, 0, 0, 0, 0, 0, 0]
      minimalClassFile rfl,
    c6_magic_and_versions.2 [0xCA, 0xFE, 0xBA, 0xAD] rfl rfl rfl rfl⟩

/-- Claim C3: for every attribute whose resolved name is not one of the
known attribute names, decoding succeeds whenever the declared number of
bytes is available, and the resulting attribute holds exactly
attribute_length raw bytes, byte-for-byte equal to the corresponding
bytes of the input (the slice of the buffer starting right after the
header), regardless of their content. -/
theorem c3_unknown_attribute_raw_bytes (fuel : Nat)
    (pool : List (Option CpInfo)) (buf : List Nat)
    (pos ani p1 alen p2 : Nat) (name : String)
    (h1 : readUint16 buf pos = .ok (ani, p1))
    (h2 : readUint32 buf p1 = .ok (alen, p2))
    (h3 : resolveAttributeName pool ani = .ok name)
    (h4 : name ∉ knownAttributeNames)
    (h5 : p2 + alen ≤ buf.length) :
    readAttributeInfo (fuel + 1) pool buf pos =
      .ok (.mk ani alen (.unknown ((buf.drop p2).take alen)), p2 + alen) ∧
    ((buf.drop p2).take alen).length = alen := by
  have hbytes := readU8List_of_le alen buf p2 h5
  constructor
  · simp only [readAttributeInfo, h1, h2, h3, exceptOk_bind]
    split <;>
      first
        | (exact absurd (by decide) h4)
        | (rw [hbytes, exceptOk_bind])
  · rw [List.length_take, List.length_drop]
    omega

/-- A constant pool whose entry 1 is the UTF8 name "Foo", unknown to the
attribute dispatcher. -/
def fooPool : List (Option CpInfo) :=
  [none, some { tag := 1, length := some 3, bytes := some [70, 111, 111] }]

theorem c3_unknown_attribute_raw_bytes_witness :
    readAttributeInfo 1 fooPool [0, 1, 0, 0, 0, 3, 9, 8, 7] 0 =
      .ok (.mk 1 3 (.unknown [9, 8, 7]), 9) ∧
    ([9, 8, 7] : List Nat).length = 3 :=
  c3_unknown_attribute_raw_bytes 0 fooPool [0, 1, 0, 0, 0, 3, 9, 8, 7]
    0 1 2 3 6 "Foo" rfl rfl rfl (by decide) (by decide)

theorem evListWith_length
    {reader : List Nat → Nat → Except JErr (ElementValue × Nat)} :
    ∀ {n : Nat} {buf : List Nat} {pos : Nat} {vs : List ElementValue}
      {p : Nat}, evListWith reader n buf pos = .ok (vs, p) →
      vs.length = n := by
  intro n
  induction n with
  | zero =>
    intro buf pos vs p h
    simp [evListWith] at h
    simp [h.1]
  | succ n ih =>
    intro buf pos vs p h
    simp only [evListWith] at h
    obtain ⟨⟨v, q⟩, h1, h⟩ := exceptBind_ok h
    obtain ⟨⟨rest, q'⟩, h2, h⟩ := exceptBind_ok h
    simp only [Except.ok.injEq, Prod.mk.injEq] at h
    rw [← h.1]
    simp [ih h2]

/-- Claim C4: the element-value decode reads, by tag byte: one u16
constant index for B C D F I J S Z s; two u16 values for e; one u16 for
c; for [ a u16 count followed by exactly that many recursively decoded
element values; for @ one recursively decoded annotation; and fails
fatally with UnknownElementValueTag on any other tag byte. -/
theorem c4_element_value_decode :
    (∀ (fuel : Nat) (buf : List Nat) (pos t v p : Nat),
      (t = 66 ∨ t = 67 ∨ t = 68 ∨ t = 70 ∨ t = 73 ∨ t = 74 ∨ t = 83 ∨
        t = 90 ∨ t = 115) →
      buf.get? pos = some t →
      readUint16 buf (pos + 1) = .ok (v, p) →
      readElementValue (fuel + 1) buf pos =
        .ok (.mk t (some v) none none none none none none, p)) ∧
    (∀ (fuel : Nat) (buf : List Nat) (pos a p1 b p2 : Nat),
      buf.get? pos = some 101 →
      readUint16 buf (pos + 1) = .ok (a, p1) →
      readUint16 buf p1 = .ok (b, p2) →
      readElementValue (fuel + 1) buf pos =
        .ok (.mk 101 none (some a) (some b) none none none none, p2)) ∧
    (∀ (fuel : Nat) (buf : List Nat) (pos v p : Nat),
      buf.get? pos = some 99 →
      readUint16 buf (pos + 1) = .ok (v, p) →
      readElementValue (fuel + 1) buf pos =
        .ok (.mk 99 none none none (some v) none none none, p)) ∧
    (∀ (fuel : Nat) (buf : List Nat) (pos n p1 p2 : Nat)
      (vs : List ElementValue),
      buf.get? pos = some 91 →
      readUint16 buf (pos + 1) = .ok (n, p1) →
      readElementValueList fuel n buf p1 = .ok (vs, p2) →
      readElementValue (fuel + 1) buf pos =
        .ok (.mk 91 none none none none (some n) (some vs) none, p2) ∧
      vs.length = n) ∧
    (∀ (fuel : Nat) (buf : List Nat) (pos : Nat) (a : Annot) (p1 : Nat),
      buf.get? pos = some 64 →
      readAttributeAnnot fuel buf (pos + 1) = .ok (a, p1) →
      readElementValue (fuel + 1) buf pos =
        .ok (.mk 64 none none none none none none (some a), p1)) ∧
    (∀ (fuel : Nat) (buf : List Nat) (pos t : Nat),
      buf.get? pos = some t →
      t ∉ knownElementValueTags →
      readElementValue (fuel + 1) buf pos =
        .error (.unknownElementValueTag t)) := by
  refine ⟨?_, ?_, ?_, ?_, ?_, ?_⟩
  · intro fuel buf pos t v p ht h h16
    rw [List.get?_eq_getElem?] at h
    rcases ht with rfl | rfl | rfl | rfl | rfl | rfl | rfl | rfl | rfl <;>
      simp [readElementValue, readUint8, h, h16, exceptOk_bind]
  · intro fuel buf pos a p1 b p2 h ha hb
    rw [List.get?_eq_getElem?] at h
    simp [readElementValue, readUint8, h, ha, hb, exceptOk_bind]
  · intro fuel buf pos v p h h16
    rw [List.get?_eq_getElem?] at h
    simp [readElementValue, readUint8, h, h16, exceptOk_bind]
  · intro fuel buf pos n p1 p2 vs h h16 hl
    rw [List.get?_eq_getElem?] at h
    unfold readElementValueList at hl
    refine ⟨?_, evListWith_length hl⟩
    simp [readElementValue, readUint8, h, h16, hl, exceptOk_bind]
  · intro fuel buf pos a p1 h ha
    rw [List.get?_eq_getElem?] at h
    unfold readAttributeAnnot at ha
    simp [readElementValue, readUint8, h, ha, exceptOk_bind]
  · intro fuel buf pos t h hnot
    rw [List.get?_eq_getElem?] at h
    obtain ⟨n101, n99, n91, n64, n66, n67, n68, n70, n73, n74, n83, n90,
        n115⟩ : t ≠ 101 ∧ t ≠ 99 ∧ t ≠ 91 ∧ t ≠ 64 ∧ t ≠ 66 ∧ t ≠ 67 ∧
        t ≠ 68 ∧ t ≠ 70 ∧ t ≠ 73 ∧ t ≠ 74 ∧ t ≠ 83 ∧ t ≠ 90 ∧
        t ≠ 115 := by
      simpa [knownElementValueTags] using hnot
    simp [readElementValue, readUint8, h, exceptOk_bind, n101, n99, n91,
      n64, n66, n67, n68, n70, n73, n74, n83, n90, n115]

theorem c4_element_value_decode_witness :
    readElementValue 1 [115, 0, 9] 0 =
      .ok (.mk 115 (some 9) none none none none none none, 3) ∧
    (readElementValue 2 [91, 0, 1, 99, 0, 2] 0 =
      .ok (.mk 91 none none none none (some 1)
        (some [.mk 99 none none none (some 2) none none none]) none, 6) ∧
      ([ElementValue.mk 99 none none none (some 2) none none none] :
        List ElementValue).length = 1) ∧
    readElementValue 1 [77] 0 = .error (.unknownElementValueTag 77) :=
  ⟨c4_element_value_decode.1 0 [115, 0, 9] 0 115 9 3 (by decide) rfl rfl,
    c4_element_value_decode.2.2.2.1 1 [91, 0, 1, 99, 0, 2] 0 1 3 6
      [.mk 99 none none none (some 2) none none none] rfl rfl rfl,
    c4_element_value_decode.2.2.2.2.2 0 [77] 0 77 rfl (by decide)⟩

/-- Claim C7 evaluation: the Code case performs no validation of the
declared u32 code_length against the remaining input.  On a Code
attribute declaring 4294967295 code bytes with only 3 bytes remaining
after the length field (hostileCodeBytes, 17 bytes long), the decoder
walks into the byte-reading loop, consumes all remaining input one byte
at a time, and only then fails with a truncation error at offset 17, the
end of the buffer — rather than failing a bounds check right after
reading the length field. -/
theorem c7_code_no_length_validation :
    readAttributeInfo 2 codeNamePool hostileCodeBytes 0 =
      .error (.truncatedInput 17) ∧
    hostileCodeBytes.length = 17 :=
  ⟨rfl, rfl⟩

end JavaClassTools
